import Mathlib

/-!
# Verification of the premarket screener (`src/main.py`)

A shallow embedding of the screener pipeline: static snapshot filtering,
relative-volume evaluation, the Finnhub news check, and the result
ranking/formatting stage, with theorems settling the specification claims.

Modelling conventions:
* Market numerics are rationals (`ℚ`); pandas missing values (`NaN`/`pd.NA`)
  are `Option.none`.
* Instants are Unix seconds (`Int`).  A timezone-aware `datetime` is a pair
  (instant, utc offset); `aware - timedelta` shifts the instant and keeps the
  offset (the `tzinfo` object is unchanged by the subtraction), and
  `astimezone(utc)` keeps the instant and zeroes the offset.
* The news collaborator (`finnhub.Client.company_news`) is a function from a
  normalized symbol to either an article list or an error; the calendar-date
  range arguments the code derives from the cutoff (an intentionally coarse,
  over-fetching hint — spec section 4.3 step 3) are absorbed into that
  function, since no behaviour downstream depends on them.
* String routines are implemented by structural recursion on `List Char`
  (ordinal comparison, split, trim), matching Python string semantics on
  code points.
-/

namespace Screener

/-! ## Configuration constants (src/main.py lines 36-47) -/

def MIN_CLOSE_PRICE : ℚ := 2
def MAX_CLOSE_PRICE : ℚ := 20
def MIN_PREMARKET_CHANGE : ℚ := 10
def MAX_FLOAT_SHARES : ℚ := 20000000
def MIN_RELATIVE_VOLUME_MULTIPLIER : ℚ := 5
def NEWS_CHECK_HOURS : Int := 24
def TIME_BUFFER_MINUTES : Int := 30

/-! ## News articles and the Finnhub check (src/main.py lines 97-161) -/

/-- One article of the news provider's response: a Unix timestamp under the
key `datetime` and up to two URL fields (`url`, with `news_url` as an
accepted alias), any of which may be absent. -/
structure Article where
  datetime : Option Int
  url : Option String
  news_url : Option String
deriving DecidableEq

/-- Python `x or y` for an optional string `x`: `y` when `x` is absent or
empty (falsy), otherwise `x` itself. -/
def orElseStr (x : Option String) (y : String) : String :=
  match x with
  | some s => if s = "" then y else s
  | none => y

/-- `art.get("url") or art.get("news_url") or ""` (src/main.py line 155). -/
def articleUrl (a : Article) : String :=
  orElseStr a.url (orElseStr a.news_url "")

/-- The scan loop of `check_for_news_finnhub` (src/main.py lines 153-158):
walk the article list in provider order and return `(true, url)` at the first
article whose timestamp field is truthy (present and nonzero) and strictly
greater than the cutoff; `(false, "")` when none qualifies. -/
def scanArticles (cutoff_unix : Int) : List Article → Bool × String
  | [] => (false, "")
  | art :: rest =>
    match art.datetime with
    | none => scanArticles cutoff_unix rest
    | some t =>
      if t ≠ 0 ∧ cutoff_unix < t then (true, articleUrl art)
      else scanArticles cutoff_unix rest

/-- The news collaborator: given a normalized ticker symbol, either a
sequence of articles in provider order, or an error (network failure,
malformed payload, ...).  `none` at the pipeline level models
`get_finnhub_client()` returning `None` (missing credentials). -/
structure NewsClient where
  company_news : String → Except String (List Article)

/-- Last `:`-separated field of a character list (`symbol.split(":")[-1]`). -/
def lastColonField (cs : List Char) : List Char :=
  (cs.reverse.takeWhile (fun c => c != ':')).reverse

/-- Strip leading and trailing whitespace (`.strip()`). -/
def trimChars (cs : List Char) : List Char :=
  ((cs.dropWhile Char.isWhitespace).reverse.dropWhile Char.isWhitespace).reverse

/-- `_normalize_ticker_for_finnhub` (src/main.py lines 97-101): an empty (falsy)
symbol is returned unchanged, otherwise the part after the last `:`,
whitespace-stripped.  (The `isinstance` guard is vacuous here: the model's
tickers are strings.) -/
def _normalize_ticker_for_finnhub (symbol : String) : String :=
  if symbol = "" then symbol
  else String.mk (trimChars (lastColonField symbol.data))

/-- `check_for_news_finnhub` (src/main.py lines 120-161).  Every failure mode
— absent client, empty normalized symbol, provider error, empty article
list — yields `(false, "")`; otherwise the article scan decides.  The Python
`try`/`except` around the provider call is the `Except.error` branch. -/
def check_for_news_finnhub (ticker : String) (cutoff_time_utc : Int)
    (client : Option NewsClient) : Bool × String :=
  match client with
  | none => (false, "")
  | some c =>
    let symbol := _normalize_ticker_for_finnhub ticker
    if symbol = "" then (false, "")
    else
      match c.company_news symbol with
      | Except.error _ => (false, "")
      | Except.ok articles =>
        if articles.isEmpty then (false, "")
        else scanArticles cutoff_time_utc articles

/-! ## The news cutoff (src/main.py lines 168-176) -/

/-- A timezone-aware datetime, reduced to what the cutoff arithmetic
observes: the absolute instant (Unix seconds) and the UTC offset of its
`tzinfo`. -/
structure AwareTime where
  instant : Int
  utcOffset : Int
deriving DecidableEq

/-- `datetime.now(market_tz)`: the current instant carrying the market
timezone's current UTC offset. -/
def nowInTz (nowUtc tzOffset : Int) : AwareTime := ⟨nowUtc, tzOffset⟩

/-- `aware - timedelta(seconds=d)`: datetime arithmetic shifts the wall
clock keeping the same `tzinfo`, so the instant shifts by exactly `d`. -/
def subSeconds (t : AwareTime) (d : Int) : AwareTime := ⟨t.instant - d, t.utcOffset⟩

/-- `.astimezone(pytz.utc)`: same instant, offset zero. -/
def astimezoneUtc (t : AwareTime) : AwareTime := ⟨t.instant, 0⟩

/-- `news_cutoff_utc` of `main` (src/main.py lines 170-176): current market
time, minus the 24h lookback (giving `news_cutoff_local`), converted to UTC,
minus the 30-minute latency buffer. -/
def news_cutoff_utc (nowUtc tzOffset : Int) : AwareTime :=
  subSeconds (astimezoneUtc (subSeconds (nowInTz nowUtc tzOffset) (NEWS_CHECK_HOURS * 3600)))
    (TIME_BUFFER_MINUTES * 60)

/-! ## Market rows and the two filters (src/main.py lines 192-230) -/

/-- One row of the TradingView snapshot, keyed by the selected columns
(src/main.py lines 50-56 and 196-204).  Numeric fields may be missing. -/
structure MarketRow where
  name : String
  close : Option ℚ
  premarket_change : Option ℚ
  float_shares_outstanding : Option ℚ
  volume : Option ℚ
  average_volume_60d_calc : Option ℚ
  prev_average_volume_60d_calc : Option ℚ
deriving DecidableEq

/-- The conjunction of the three static predicates of the query's
where-clause (src/main.py lines 205-209): `close.between(2, 20)` (inclusive
range, per the snapshot-provider interface of spec section 6),
`premarket_change > 10` (strict) and `float_shares_outstanding < 20000000`
(strict).  A row missing any tested field fails the predicate (fail-closed:
a null compares as unknown, never as satisfying). -/
def staticMask (r : MarketRow) : Bool :=
  (match r.close with
   | some p => decide (MIN_CLOSE_PRICE ≤ p ∧ p ≤ MAX_CLOSE_PRICE)
   | none => false) &&
  (match r.premarket_change with
   | some c => decide (MIN_PREMARKET_CHANGE < c)
   | none => false) &&
  (match r.float_shares_outstanding with
   | some f => decide (f < MAX_FLOAT_SHARES)
   | none => false)

/-- The snapshot filter: the rows of the raw snapshot satisfying all three
static predicates (the provider applies the where-clause of src/main.py
lines 205-210 and returns exactly the matching rows). -/
def snapshotFilter (rows : List MarketRow) : List MarketRow :=
  rows.filter staticMask

/-- `.replace(0, pd.NA)` on an optional numeric (src/main.py line 220). -/
def replaceZeroNA (x : Option ℚ) : Option ℚ :=
  match x with
  | some v => if v = 0 then none else some v
  | none => none

/-- The `Volume Ratio` column (src/main.py line 220):
`volume / prev_avg_volume.replace(0, pd.NA)`.  Pandas division propagates
missing values, so the ratio is defined exactly when the numerator is
present and the denominator is present and nonzero. -/
def volumeRatio (r : MarketRow) : Option ℚ :=
  match r.volume, replaceZeroNA r.prev_average_volume_60d_calc with
  | some v, some a => some (v / a)
  | _, _ => none

/-- The relative-volume mask (src/main.py line 221):
`Volume Ratio > MIN_RELATIVE_VOLUME_MULTIPLIER`.  A missing ratio compares
false in pandas, so such rows are dropped. -/
def relVolMask (r : MarketRow) : Bool :=
  match volumeRatio r with
  | some q => decide (MIN_RELATIVE_VOLUME_MULTIPLIER < q)
  | none => false

/-- `filtered_df` (src/main.py line 221): the rows surviving the
relative-volume filter. -/
def relVolFilter (rows : List MarketRow) : List MarketRow :=
  rows.filter relVolMask

/-! ## Number formatting (src/main.py lines 82-94 and 261-265)

Python's fixed-point float formatting is idealised over `ℚ`: the value is
scaled by `10 ^ d` and rounded to the nearest integer, ties up (the binary
double's round-half-even tie behaviour is not observable at the granularity
any claim tests).  Grouping inserts `,` every three digits of the integer
part, as `{:,.df}` does. -/

/-- Insert `,` after every third character of a reversed digit list;
`k` counts digits already emitted in the current group. -/
def groupRev : List Char → Nat → List Char
  | [], _ => []
  | c :: cs, k => if k = 3 then ',' :: c :: groupRev cs 1 else c :: groupRev cs (k + 1)

/-- Thousands-separate a decimal digit string (`1234567` to `1,234,567`). -/
def groupDigits (s : String) : String :=
  String.mk ((groupRev s.data.reverse 0).reverse)

/-- Left-pad a digit string with `0` up to width `d`. -/
def padFrac (s : String) (d : Nat) : String :=
  String.mk (List.replicate (d - s.data.length) '0') ++ s

/-- `round(x * 10 ^ d)` as integer arithmetic on the rational's numerator and
denominator: the floor of `x * 10 ^ d + 1 / 2`. -/
def roundScaled (x : ℚ) (d : Nat) : Int :=
  Int.fdiv (2 * x.num * ((10 ^ d : Nat) : Int) + (x.den : Int)) (2 * (x.den : Int))

/-- The shared fixed-point renderer: `{:,.df}` when `grouped`, `{:.df}`
otherwise. -/
def fixedDecimalString (x : ℚ) (d : Nat) (grouped : Bool) : String :=
  let scaled := roundScaled x d
  let m := scaled.natAbs
  let ip := toString (m / 10 ^ d)
  let ipStr := if grouped then groupDigits ip else ip
  let s := ipStr ++ (if d = 0 then "" else "." ++ padFrac (toString (m % 10 ^ d)) d)
  if scaled < 0 then "-" ++ s else s

/-- `format_number` (src/main.py lines 82-94): map a numeric series to
comma-separated fixed-point strings; a missing entry (for which `pd.isna`
holds) renders as the empty string.  The inner `try`/`except` (malformed
non-numeric cell) has no inhabitant in this typed model, where every present
cell is a rational. -/
def format_number (series : List (Option ℚ)) (decimal_places : Nat) : List String :=
  series.map (fun x =>
    match x with
    | none => ""
    | some v => fixedDecimalString v decimal_places true)

/-- The `Price` cell formatter (src/main.py lines 261-265):
`f"{x:.2f}" if pd.notna(x) else ""` — two decimals, no grouping. -/
def priceCell (x : Option ℚ) : String :=
  match x with
  | none => ""
  | some v => fixedDecimalString v 2 false

/-- The `Price` column (src/main.py lines 261-265): `priceCell` applied
elementwise. -/
def priceColumn (series : List (Option ℚ)) : List String :=
  series.map priceCell

/-- Parse a decimal digit list into a number; `none` when empty or when a
non-digit appears. -/
def parseDigits (cs : List Char) : Option Nat :=
  if cs.isEmpty then none
  else cs.foldl (fun acc c =>
    acc.bind (fun n => if c.isDigit then some (n * 10 + (c.toNat - 48)) else none)) (some 0)

/-- `float(x)` on the decimal strings this pipeline produces: optional sign,
integer digits, optional fractional digits.  The value
`±(ip.fp) = ±(ip * 10 ^ |fp| + fp) / 10 ^ |fp|` is built with `Rat.divInt`. -/
def parseDecimalQ (s : String) : Option ℚ :=
  let body := match s.data with
    | '-' :: rest => rest
    | l => l
  let neg := s.data.headD ' ' = '-'
  match body.span (fun c => c != '.') with
  | (ip, []) =>
    (parseDigits ip).map (fun n =>
      Rat.divInt (if neg then -(n : Int) else (n : Int)) 1)
  | (ip, _dot :: fp) =>
    match parseDigits ip, parseDigits fp with
    | some a, some b =>
      let v : Int := ((a * 10 ^ fp.length + b : Nat) : Int)
      some (Rat.divInt (if neg then -v else v) ((10 ^ fp.length : Nat) : Int))
    | _, _ => none

/-- The second pass over the `Price` column (src/main.py lines 285-287):
`f"{float(x):.2f}" if x not in ("", None) else ""`.  On an unparsable
nonempty string Python would raise (aborting the run inside the outer
`try`); that branch is unreachable for the strings `priceCell` produces and
is modelled as the identity. -/
def pricePassTwo (s : String) : String :=
  if s = "" then ""
  else
    match parseDecimalQ s with
    | some q => fixedDecimalString q 2 false
    | none => s

/-! ## Ranking, truncation and the article links (src/main.py lines 232-313) -/

/-- A `filtered_df` row after the news columns are joined on
(src/main.py lines 238-253): the market row plus `Makes News (24H)` and
`News URL`. -/
structure Candidate where
  row : MarketRow
  makesNews : Bool
  newsUrl : String
deriving DecidableEq

/-- One row of `display_df` (src/main.py lines 267-279): the selected,
renamed display columns.  `News URL` is deliberately not among them. -/
structure DisplayRow where
  ticker : String
  price : String
  changeFromClose : String
  floatShares : String
  makesNews : Bool
  relVol : String
  currentVol : String
  avgVol : String
deriving DecidableEq

/-- Build the display row of a candidate (src/main.py lines 256-279): every
numeric display column is a formatted string; the numeric originals stay
behind in `filtered_df` and are not part of `display_df`. -/
def mkDisplayRow (c : Candidate) : DisplayRow :=
  { ticker := c.row.name
    price := priceCell c.row.close
    changeFromClose :=
      match c.row.premarket_change with
      | none => ""
      | some v => fixedDecimalString v 2 true
    floatShares :=
      match c.row.float_shares_outstanding with
      | none => ""
      | some v => fixedDecimalString v 0 true
    makesNews := c.makesNews
    relVol :=
      match volumeRatio c.row with
      | none => ""
      | some v => fixedDecimalString v 2 true
    currentVol :=
      match c.row.volume with
      | none => ""
      | some v => fixedDecimalString v 0 true
    avgVol :=
      match c.row.average_volume_60d_calc with
      | none => ""
      | some v => fixedDecimalString v 0 true }

/-- Python ordinal string comparison (`str.__lt__`), by code points. -/
def strLtChars : List Char → List Char → Bool
  | _, [] => false
  | [], _ :: _ => true
  | a :: as, b :: bs =>
    if a.toNat < b.toNat then true
    else if b.toNat < a.toNat then false
    else strLtChars as bs

/-- Ordinal `<` on strings, the comparison pandas applies when sorting an
object (string) column. -/
def strLt (a b : String) : Bool := strLtChars a.data b.data

/-- Insert a display row into a list already sorted descending by the
`Change from Close (%)` string: the row goes before the first element whose
key does not strictly exceed its own. -/
def insertByChangeDesc (a : DisplayRow) : List DisplayRow → List DisplayRow
  | [] => [a]
  | b :: bs =>
    if strLt a.changeFromClose b.changeFromClose then b :: insertByChangeDesc a bs
    else a :: b :: bs

/-- `display_df.sort_values(by="Change from Close (%)", ascending=False)`
(src/main.py line 281).  The sort key is the FORMATTED percent string — an
object column — so pandas compares strings, ordinally.  Modelled as a stable
insertion sort; the kind pandas defaults to (quicksort) fixes no order among
equal keys, and no claim is settled on a tie. -/
def sortByChangeDesc : List DisplayRow → List DisplayRow
  | [] => []
  | a :: as => insertByChangeDesc a (sortByChangeDesc as)

/-- The displayed table rows (src/main.py lines 279-292): sort `display_df`
descending by the percent string, re-render the `Price` cells, and keep the
first 10 rows for the markdown rendering. -/
def tableRows (cands : List Candidate) : List DisplayRow :=
  (((sortByChangeDesc (cands.map mkDisplayRow)).map
      (fun r => { r with price := pricePassTwo r.price })).take 10)

/-- One markdown article link (src/main.py line 300). -/
def linkLine (c : Candidate) : String :=
  "- [" ++ c.row.name ++ "](" ++ c.newsUrl ++ ")\n"

/-- The loop body of the links section (src/main.py lines 296-300): iterate
rows in the order given, appending a link for each row whose `News URL` is
nonempty. -/
def linksLoop : List Candidate → String
  | [] => ""
  | c :: cs => (if c.newsUrl = "" then "" else linkLine c) ++ linksLoop cs

/-- `links_md` (src/main.py lines 295-300): the header, then links collected
from `filtered_df.head(10)` — the first 10 candidates in their ORIGINAL
(pre-sort) order, `filtered_df` never having been sorted. -/
def linksMd (cands : List Candidate) : String :=
  "\n--- Article Links ---\n" ++ linksLoop (cands.take 10)

/-! ## The pipeline (`main`, src/main.py lines 167-316) -/

/-- How a run ends: an informational early exit at either emptiness check,
or a produced report (the markdown artifact's table rows and links text). -/
inductive RunOutcome where
  | noBasicMatches : RunOutcome
  | noRelVolMatches : RunOutcome
  | report : List DisplayRow → String → RunOutcome
deriving DecidableEq

/-- The output artifact: the file is written only on the `report` path
(src/main.py lines 302-309). -/
def runArtifact : RunOutcome → Option (List DisplayRow × String)
  | RunOutcome.report table links => some (table, links)
  | _ => none

/-- The news stage (src/main.py lines 234-236): one `check_for_news_finnhub`
call per surviving row, all sharing the one precomputed cutoff. -/
def newsStage (filtered : List MarketRow) (cutoff : Int) (client : Option NewsClient) :
    List (Bool × String) :=
  filtered.map (fun r => check_for_news_finnhub r.name cutoff client)

/-- `main` (src/main.py lines 167-316) as a function of the provider's
snapshot rows (the post-where-clause result of the TradingView query), the
current instant, the market timezone's current offset and the optional news
client: compute the cutoff once, stop informationally if the snapshot or the
relative-volume survivors are empty, otherwise join on the news columns and
produce the report. -/
def main_pipeline (snapshot : List MarketRow) (nowUtc tzOffset : Int)
    (client : Option NewsClient) : RunOutcome :=
  let cutoff := (news_cutoff_utc nowUtc tzOffset).instant
  if snapshot.isEmpty then RunOutcome.noBasicMatches
  else
    let filtered := relVolFilter snapshot
    if filtered.isEmpty then RunOutcome.noRelVolMatches
    else
      let news := newsStage filtered cutoff client
      let cands := (filtered.zip news).map (fun p => Candidate.mk p.1 p.2.1 p.2.2)
      RunOutcome.report (tableRows cands) (linksMd cands)

/-! ## Helper lemmas -/

/-- An article the scan loop accepts: its timestamp field is present, truthy
(nonzero) and strictly beyond the cutoff. -/
def articleQualifies (cutoff : Int) (a : Article) : Prop :=
  ∃ t, a.datetime = some t ∧ t ≠ 0 ∧ cutoff < t

theorem scan_skips_to_first (cutoff : Int) (pre post : List Article) (a : Article) (t : Int)
    (hpre : ∀ b ∈ pre, ¬ articleQualifies cutoff b)
    (ht : a.datetime = some t) (htq : t ≠ 0 ∧ cutoff < t) :
    scanArticles cutoff (pre ++ a :: post) = (true, articleUrl a) := by
  induction pre with
  | nil =>
    simp only [List.nil_append, scanArticles, ht]
    rw [if_pos htq]
  | cons b bs ih =>
    have hb : ¬ articleQualifies cutoff b := hpre b (List.mem_cons_self b bs)
    have hbs : ∀ x ∈ bs, ¬ articleQualifies cutoff x :=
      fun x hx => hpre x (List.mem_cons_of_mem b hx)
    cases hdt : b.datetime with
    | none =>
      simp only [List.cons_append, scanArticles, hdt]
      exact ih hbs
    | some u =>
      simp only [List.cons_append, scanArticles, hdt]
      rw [if_neg]
      · exact ih hbs
      · intro hq
        exact hb ⟨u, hdt, hq⟩

theorem scan_no_qualifier (cutoff : Int) (arts : List Article)
    (h : ∀ b ∈ arts, ¬ articleQualifies cutoff b) :
    scanArticles cutoff arts = (false, "") := by
  induction arts with
  | nil => rfl
  | cons b bs ih =>
    have hb : ¬ articleQualifies cutoff b := h b (List.mem_cons_self b bs)
    have hbs : ∀ x ∈ bs, ¬ articleQualifies cutoff x :=
      fun x hx => h x (List.mem_cons_of_mem b hx)
    cases hdt : b.datetime with
    | none =>
      simp only [scanArticles, hdt]
      exact ih hbs
    | some u =>
      simp only [scanArticles, hdt]
      rw [if_neg]
      · exact ih hbs
      · intro hq
        exact hb ⟨u, hdt, hq⟩

/-- Unfolding of `check_for_news_finnhub` at a present client. -/
theorem check_some_eq (ticker : String) (cutoff : Int) (c : NewsClient) :
    check_for_news_finnhub ticker cutoff (some c) =
      (if _normalize_ticker_for_finnhub ticker = "" then (false, "")
       else
         match c.company_news (_normalize_ticker_for_finnhub ticker) with
         | Except.error _ => (false, "")
         | Except.ok articles =>
           if articles.isEmpty then (false, "")
           else scanArticles cutoff articles) := rfl

/-! ## The claims -/

/-- C3: for a fixed article sequence and fixed cutoff the scan of
`check_for_news_finnhub` walks the sequence in the order given (no
re-sorting) and returns `(true, url)` at the first article whose timestamp
strictly exceeds the cutoff — every earlier article's timestamp (when it has
one) is at most the cutoff.  Determinism is inherent: the scan is a pure
function of the sequence and the cutoff.  The witness instantiates the
claim's scenario (cutoff `2024-01-10T09:00:00Z` = 1704877200, articles A at
08:00Z, B at 10:00Z, result `(true, urlB)`). -/
theorem C3_scan_returns_first_strictly_after_cutoff
    (cutoff : Int) (pre post : List Article) (a : Article) (t : Int)
    (hcut : 0 ≤ cutoff)
    (hpre : ∀ b ∈ pre, ∀ u, b.datetime = some u → u ≤ cutoff)
    (ht : a.datetime = some t) (hgt : cutoff < t) :
    scanArticles cutoff (pre ++ a :: post) = (true, articleUrl a) := by
  refine scan_skips_to_first cutoff pre post a t ?_ ht ?_
  · rintro b hb ⟨u, hdt, -, hlt⟩
    exact absurd (hpre b hb u hdt) (not_le.mpr hlt)
  · exact ⟨by omega, hgt⟩

/-- C3 witness: the claim's concrete scenario evaluates to `(true, urlB)`. -/
theorem C3_scenario_witness :
    scanArticles 1704877200
      [⟨some 1704873600, some "urlA", none⟩, ⟨some 1704880800, some "urlB", none⟩]
      = (true, "urlB") := by
  have h := C3_scan_returns_first_strictly_after_cutoff 1704877200
    [⟨some 1704873600, some "urlA", none⟩] []
    ⟨some 1704880800, some "urlB", none⟩ 1704880800
    (by decide)
    (by
      intro b hb u hu
      rcases List.mem_singleton.mp hb with rfl
      cases hu
      decide)
    rfl (by decide)
  simpa using h

/-- C4: the per-ticker news check is a total function returning one
`(bool, url)` pair, and it returns `(false, "")` whenever the client is
absent, the normalized symbol is empty, the collaborator errors, the
collaborator returns no articles, or no returned article qualifies; with the
client absent, the whole news stage maps every candidate to `(false, "")`
(the `none` branch returns before the collaborator is ever consulted). -/
theorem C4_news_check_failure_modes (ticker : String) (cutoff : Int)
    (client : Option NewsClient) :
    (check_for_news_finnhub ticker cutoff none = (false, "")) ∧
    (_normalize_ticker_for_finnhub ticker = "" →
      check_for_news_finnhub ticker cutoff client = (false, "")) ∧
    (∀ c, client = some c →
      (∀ e, c.company_news (_normalize_ticker_for_finnhub ticker) = Except.error e →
        check_for_news_finnhub ticker cutoff client = (false, "")) ∧
      (c.company_news (_normalize_ticker_for_finnhub ticker) = Except.ok [] →
        check_for_news_finnhub ticker cutoff client = (false, "")) ∧
      (∀ arts, c.company_news (_normalize_ticker_for_finnhub ticker) = Except.ok arts →
        (∀ b ∈ arts, ¬ articleQualifies cutoff b) →
        check_for_news_finnhub ticker cutoff client = (false, ""))) ∧
    (∀ filtered : List MarketRow,
      newsStage filtered cutoff none = filtered.map (fun _ => (false, ""))) := by
  refine ⟨rfl, ?_, ?_, ?_⟩
  · intro h
    cases client with
    | none => rfl
    | some c => rw [check_some_eq, if_pos h]
  · rintro c rfl
    by_cases hs : _normalize_ticker_for_finnhub ticker = ""
    · exact ⟨fun e _ => by rw [check_some_eq, if_pos hs],
        fun _ => by rw [check_some_eq, if_pos hs],
        fun arts _ _ => by rw [check_some_eq, if_pos hs]⟩
    · refine ⟨fun e he => ?_, fun he => ?_, fun arts he hq => ?_⟩
      · rw [check_some_eq, if_neg hs, he]
      · rw [check_some_eq, if_neg hs, he]
        rfl
      · rw [check_some_eq, if_neg hs, he]
        cases arts with
        | nil => rfl
        | cons x xs =>
          simp only [List.isEmpty_cons, if_false, Bool.false_eq_true]
          exact scan_no_qualifier cutoff (x :: xs) hq
  · intro filtered
    rfl

/-- C4 witness: concrete instances of the failure modes — an absent client,
an empty normalized symbol, an erroring collaborator and an empty article
list all yield `(false, "")`. -/
theorem C4_failure_modes_witness :
    check_for_news_finnhub "NASDAQ:ABCD" 1704879000 none = (false, "") ∧
    check_for_news_finnhub "" 1704879000 (some ⟨fun _ => Except.ok []⟩) = (false, "") ∧
    check_for_news_finnhub "NASDAQ:ABCD" 1704879000
      (some ⟨fun _ => Except.error "boom"⟩) = (false, "") ∧
    check_for_news_finnhub "NASDAQ:ABCD" 1704879000
      (some ⟨fun _ => Except.ok []⟩) = (false, "") := by
  refine ⟨(C4_news_check_failure_modes "NASDAQ:ABCD" 1704879000 none).1,
    (C4_news_check_failure_modes "" 1704879000 (some ⟨fun _ => Except.ok []⟩)).2.1 rfl,
    ((C4_news_check_failure_modes "NASDAQ:ABCD" 1704879000
        (some ⟨fun _ => Except.error "boom"⟩)).2.2.1 _ rfl).1 "boom" rfl,
    ((C4_news_check_failure_modes "NASDAQ:ABCD" 1704879000
        (some ⟨fun _ => Except.ok []⟩)).2.2.1 _ rfl).2.1 rfl⟩

/-- C5: the news cutoff is one shared instant per run: current market time
minus the 24-hour lookback, converted to UTC (same instant, offset zero),
minus the 30-minute buffer — equivalently `now_utc - 24h - 30min` — and the
news stage evaluates every candidate's check at that single value. -/
theorem C5_cutoff_once_shared (nowUtc tzOffset : Int) :
    ((news_cutoff_utc nowUtc tzOffset).instant = nowUtc - 24 * 3600 - 30 * 60) ∧
    ((news_cutoff_utc nowUtc tzOffset).utcOffset = 0) ∧
    (∀ (filtered : List MarketRow) (client : Option NewsClient),
      newsStage filtered ((news_cutoff_utc nowUtc tzOffset).instant) client
        = filtered.map (fun r =>
            check_for_news_finnhub r.name (nowUtc - 24 * 3600 - 30 * 60) client)) := by
  have hinst : (news_cutoff_utc nowUtc tzOffset).instant = nowUtc - 24 * 3600 - 30 * 60 := by
    simp only [news_cutoff_utc, subSeconds, astimezoneUtc, nowInTz, NEWS_CHECK_HOURS,
      TIME_BUFFER_MINUTES]
  refine ⟨hinst, rfl, ?_⟩
  intro filtered client
  rw [hinst]
  rfl

/-- C7: an empty snapshot, or an empty relative-volume survivor set, ends the
run early as a normal outcome: the distinguished informational outcome is
produced, no artifact is written, and the result does not depend on the news
client at all (no news query can influence it, none is needed). -/
theorem C7_empty_runs_terminate_early (snapshot : List MarketRow) (nowUtc tzOffset : Int)
    (client clientB : Option NewsClient) :
    (snapshot = [] →
      main_pipeline snapshot nowUtc tzOffset client = RunOutcome.noBasicMatches) ∧
    (snapshot ≠ [] → relVolFilter snapshot = [] →
      main_pipeline snapshot nowUtc tzOffset client = RunOutcome.noRelVolMatches) ∧
    (relVolFilter snapshot = [] →
      main_pipeline snapshot nowUtc tzOffset client
        = main_pipeline snapshot nowUtc tzOffset clientB) ∧
    (relVolFilter snapshot = [] →
      runArtifact (main_pipeline snapshot nowUtc tzOffset client) = none) := by
  have hmain : ∀ cl, snapshot ≠ [] → relVolFilter snapshot = [] →
      main_pipeline snapshot nowUtc tzOffset cl = RunOutcome.noRelVolMatches := by
    intro cl hne hfil
    cases snapshot with
    | nil => exact absurd rfl hne
    | cons x xs =>
      simp only [main_pipeline, List.isEmpty_cons, if_false, hfil, Bool.false_eq_true,
        List.isEmpty_nil, if_true]
  refine ⟨fun h => by subst h; rfl, hmain client, ?_, ?_⟩
  · intro hfil
    cases snapshot with
    | nil => rfl
    | cons x xs =>
      rw [hmain client (by simp) hfil, hmain clientB (by simp) hfil]
  · intro hfil
    cases snapshot with
    | nil => rfl
    | cons x xs =>
      rw [hmain client (by simp) hfil]
      rfl

/-- C6: the ratio column is `volume / avg_volume_prior_period`; a missing or
zero denominator (and a missing numerator) leaves the ratio undefined — a
missing value, not infinity or an error — and such a row never survives the
filter; every surviving row has a defined ratio strictly above the 5.0
multiplier, a ratio of exactly 5.0 being excluded. -/
theorem C6_volume_ratio_strict_threshold (rows : List MarketRow) (r : MarketRow) :
    (∀ v a, r.volume = some v → r.prev_average_volume_60d_calc = some a → a ≠ 0 →
      volumeRatio r = some (v / a)) ∧
    ((r.prev_average_volume_60d_calc = none ∨ r.prev_average_volume_60d_calc = some 0
        ∨ r.volume = none) →
      volumeRatio r = none) ∧
    (volumeRatio r = none → r ∉ relVolFilter rows) ∧
    (volumeRatio r = some MIN_RELATIVE_VOLUME_MULTIPLIER → r ∉ relVolFilter rows) ∧
    (r ∈ relVolFilter rows →
      ∃ q, volumeRatio r = some q ∧ MIN_RELATIVE_VOLUME_MULTIPLIER < q) := by
  refine ⟨?_, ?_, ?_, ?_, ?_⟩
  · intro v a hv ha hnz
    simp only [volumeRatio, replaceZeroNA, hv, ha, if_neg hnz]
  · rintro (h | h | h) <;> simp only [volumeRatio, replaceZeroNA, h] <;>
      cases hv : r.volume <;> simp
  · intro h hr
    rw [relVolFilter, List.mem_filter] at hr
    rw [relVolMask, h] at hr
    exact absurd hr.2 (by simp)
  · intro h hr
    rw [relVolFilter, List.mem_filter] at hr
    rw [relVolMask, h] at hr
    simp at hr
  · intro hr
    rw [relVolFilter, List.mem_filter, relVolMask] at hr
    rcases hq : volumeRatio r with - | q
    · rw [hq] at hr
      exact absurd hr.2 (by simp)
    · rw [hq] at hr
      exact ⟨q, rfl, of_decide_eq_true hr.2⟩

/-- C6 witness: a zero denominator leaves the ratio undefined and the row is
excluded; a row with ratio 10 is accepted with a defined ratio above 5. -/
theorem C6_witness :
    volumeRatio ⟨"Z", some 5, some 11, some 1000, some 900, some 1, some 0⟩ = none ∧
    (⟨"Z", some 5, some 11, some 1000, some 900, some 1, some 0⟩ : MarketRow)
      ∉ relVolFilter [⟨"Z", some 5, some 11, some 1000, some 900, some 1, some 0⟩] ∧
    (∃ q, volumeRatio ⟨"T", some 5, some 25, some 1000000, some 1000000,
        some 200000, some 100000⟩ = some q ∧ MIN_RELATIVE_VOLUME_MULTIPLIER < q) := by
  have h1 := (C6_volume_ratio_strict_threshold
    [⟨"Z", some 5, some 11, some 1000, some 900, some 1, some 0⟩]
    ⟨"Z", some 5, some 11, some 1000, some 900, some 1, some 0⟩).2.1
    (Or.inr (Or.inl rfl))
  have h2 := (C6_volume_ratio_strict_threshold
    [⟨"Z", some 5, some 11, some 1000, some 900, some 1, some 0⟩]
    ⟨"Z", some 5, some 11, some 1000, some 900, some 1, some 0⟩).2.2.1 h1
  refine ⟨h1, h2, ?_⟩
  have h3 := (C6_volume_ratio_strict_threshold []
    ⟨"T", some 5, some 25, some 1000000, some 1000000, some 200000, some 100000⟩).1
    1000000 100000 rfl rfl (by norm_num)
  refine ⟨(1000000 : ℚ) / 100000, h3, by norm_num [MIN_RELATIVE_VOLUME_MULTIPLIER]⟩

/-- The static mask holds exactly when all three predicate fields are
present and in range: price within the inclusive band, premarket change
strictly above the minimum, float strictly below the maximum. -/
theorem staticMask_iff (r : MarketRow) :
    staticMask r = true ↔
      (∃ p, r.close = some p ∧ MIN_CLOSE_PRICE ≤ p ∧ p ≤ MAX_CLOSE_PRICE) ∧
      (∃ c, r.premarket_change = some c ∧ MIN_PREMARKET_CHANGE < c) ∧
      (∃ f, r.float_shares_outstanding = some f ∧ f < MAX_FLOAT_SHARES) := by
  unfold staticMask
  cases hc : r.close <;> cases hp : r.premarket_change <;>
    cases hf : r.float_shares_outstanding <;> simp [and_assoc]

/-- C8: the snapshot filter keeps exactly the rows satisfying the
conjunction of the three static predicates, with inclusive price bounds and
strict change/float bounds; concretely, a row at price exactly 2 or exactly
20 passes, a row at premarket change exactly 10 fails, and a row at float
exactly 20000000 fails. -/
theorem C8_static_filter_conjunction_boundaries (rows : List MarketRow) (r : MarketRow) :
    (r ∈ snapshotFilter rows ↔ r ∈ rows ∧
      (∃ p, r.close = some p ∧ MIN_CLOSE_PRICE ≤ p ∧ p ≤ MAX_CLOSE_PRICE) ∧
      (∃ c, r.premarket_change = some c ∧ MIN_PREMARKET_CHANGE < c) ∧
      (∃ f, r.float_shares_outstanding = some f ∧ f < MAX_FLOAT_SHARES)) ∧
    (staticMask ⟨"pLow", some 2, some 11, some 1000, some 1, some 1, some 1⟩ = true) ∧
    (staticMask ⟨"pHigh", some 20, some 11, some 1000, some 1, some 1, some 1⟩ = true) ∧
    (staticMask ⟨"chEq", some 5, some 10, some 1000, some 1, some 1, some 1⟩ = false) ∧
    (staticMask ⟨"flEq", some 5, some 11, some 20000000, some 1, some 1, some 1⟩ = false) := by
  refine ⟨?_, by decide, by decide, by decide, by decide⟩
  rw [snapshotFilter, List.mem_filter, staticMask_iff]

/-- C9: the formatting stage is total and missing-tolerant: both formatters
map a series elementwise (one output string per input cell), a missing cell
renders as the empty string, and a present cell renders as its fixed-decimal
string — thousands-separated for `format_number`, plain two-decimal for the
price cells; concrete renderings shown on a sample series. -/
theorem C9_formatting_total_and_missing_tolerant (xs : List (Option ℚ)) (d i : Nat) :
    ((format_number xs d).length = xs.length) ∧
    ((priceColumn xs).length = xs.length) ∧
    ((format_number xs d)[i]? = (xs[i]?).map (fun x =>
      match x with
      | none => ""
      | some v => fixedDecimalString v d true)) ∧
    ((priceColumn xs)[i]? = (xs[i]?).map priceCell) ∧
    (xs[i]? = some none →
      (format_number xs d)[i]? = some "" ∧ (priceColumn xs)[i]? = some "") ∧
    (format_number [none, some (1234567 : ℚ), some (⟨211, 2, by decide, by decide⟩ : ℚ)] 2
      = ["", "1,234,567.00", "105.50"]) ∧
    (priceColumn [none, some (⟨123, 10, by decide, by decide⟩ : ℚ)] = ["", "12.30"]) := by
  have hf : (format_number xs d)[i]? = (xs[i]?).map (fun x =>
      match x with
      | none => ""
      | some v => fixedDecimalString v d true) := by
    rw [format_number, List.getElem?_map]
  have hp : (priceColumn xs)[i]? = (xs[i]?).map priceCell := by
    rw [priceColumn, List.getElem?_map]
  refine ⟨by rw [format_number, List.length_map], by rw [priceColumn, List.length_map],
    hf, hp, ?_, by decide, by decide⟩
  intro hnone
  rw [hf, hp, hnone]
  exact ⟨rfl, rfl⟩

/-! ### C10: a qualifying article with no URL -/

/-- A news client whose single article qualifies but carries neither a
`url` nor a `news_url` field. -/
def noUrlClient : NewsClient := ⟨fun _ => Except.ok [⟨some 1704900000, none, none⟩]⟩

/-- A candidate flagged as making news with an empty URL — the join of a
surviving row with the `(true, "")` news result. -/
def flaggedNoUrlCand : Candidate :=
  ⟨⟨"NASDAQ:ABCD", some 5, some 25, some 1000000, some 1000000, some 200000, some 100000⟩,
    true, ""⟩

/-- C10: when the first article beyond the cutoff has no URL field under
either name, the check returns `(true, "")`; articles with a missing or zero
timestamp are skipped and the scan continues past them; a candidate joined
with `(true, "")` shows `true` in the table's news column yet contributes no
line to the article-link export. -/
theorem C10_news_true_with_empty_url :
    (check_for_news_finnhub "NASDAQ:ABCD" 1704879000 (some noUrlClient) = (true, "")) ∧
    (scanArticles 1704879000
      [⟨none, some "u0", none⟩, ⟨some 0, some "u1", none⟩, ⟨some 1704900000, some "u2", none⟩]
      = (true, "u2")) ∧
    ((tableRows [flaggedNoUrlCand]).map DisplayRow.makesNews = [true]) ∧
    (linksMd [flaggedNoUrlCand] = "\n--- Article Links ---\n") :=
  ⟨by decide, by decide, by decide, by decide⟩

/-! ### C1: the displayed table is sorted on the formatted percent string -/

/-- The rational 105.5 (= 211/2), written in lowest terms. -/
def q105p5 : ℚ := ⟨211, 2, by decide, by decide⟩

/-- A candidate whose premarket change is 105.5 percent, listed first. -/
def candGain105 : Candidate :=
  ⟨⟨"AAA", some 5, some q105p5, some 1000000, some 1000000, some 200000, some 100000⟩,
    false, ""⟩

/-- A candidate whose premarket change is 99 percent, listed second. -/
def candGain99 : Candidate :=
  ⟨⟨"BBB", some 5, some 99, some 1000000, some 1000000, some 200000, some 100000⟩,
    false, ""⟩

/-- C1 (failing input): `display_df` is sorted on the `Change from Close (%)`
column AFTER that column was replaced by its formatted string, so pandas
compares strings ordinally: at changes 105.5 and 99, the table lists the
99-percent row first (`"9" > "1"` by code point) even though 99 < 105.5 —
the displayed order is not descending in the numeric field, contradicting
the claim (and the spec's "preserving the underlying numeric fields for
sorting"). -/
theorem C1_table_sorts_formatted_string_not_numeric :
    (q105p5 = 1055 / 10) ∧
    ((tableRows [candGain105, candGain99]).map (fun r => (r.ticker, r.changeFromClose))
      = [("BBB", "99.00"), ("AAA", "105.50")]) ∧
    ((99 : ℚ) < q105p5) := by
  refine ⟨?_, by decide, by decide⟩
  rw [show q105p5 = Rat.divInt 211 2 from by decide, Rat.divInt_eq_div]
  norm_num

/-! ### C2: the article links come from the unsorted candidate head -/

/-- Concatenate a list of strings. -/
def concatStrings : List String → String
  | [] => ""
  | s :: ss => s ++ concatStrings ss

theorem linksLoop_filter (l : List Candidate) :
    linksLoop l = concatStrings ((l.filter (fun c => c.newsUrl != "")).map linkLine) := by
  induction l with
  | nil => rfl
  | cons c cs ih =>
    by_cases h : c.newsUrl = ""
    · simp only [linksLoop, List.filter_cons, if_pos h, h, bne_self_eq_false,
        Bool.false_eq_true, if_false]
      exact ih
    · simp [linksLoop, List.filter_cons, h, ih, concatStrings]

/-- The numeric percent-change key of a candidate (claim-side helper). -/
def numericChange (c : Candidate) : ℚ := (c.row.premarket_change).getD 0

/-- Claim-side stable insertion, descending by the numeric change. -/
def insertByNumericDesc (a : Candidate) : List Candidate → List Candidate
  | [] => [a]
  | b :: bs =>
    if numericChange a < numericChange b then b :: insertByNumericDesc a bs
    else a :: b :: bs

/-- Claim-side stable sort, descending by the numeric change. -/
def sortByNumericDesc : List Candidate → List Candidate
  | [] => []
  | a :: as => insertByNumericDesc a (sortByNumericDesc as)

/-- Modelled from the claim's words, for comparison with `linksMd`: the
article links "taken from the candidate set in the same
descending-by-percent-change sorted order as the displayed table, and capped
at 10 rows". -/
def linksMdClaimOrder (cands : List Candidate) : String :=
  "\n--- Article Links ---\n" ++ linksLoop ((sortByNumericDesc cands).take 10)

/-- C2 counterexample: with candidates at changes 11 then 12 (both with
URLs), the displayed table lists the 12-percent row first, but the link
export lists the 11-percent row first — `filtered_df` was never sorted, so
the links follow the input order, not the table's sorted order. -/
theorem C2_links_order_counterexample :
    (linksMd [⟨⟨"AAA", some 5, some 11, some 1000000, some 1000000, some 200000,
        some 100000⟩, true, "uA"⟩,
      ⟨⟨"BBB", some 5, some 12, some 1000000, some 1000000, some 200000,
        some 100000⟩, true, "uB"⟩]
      = "\n--- Article Links ---\n- [AAA](uA)\n- [BBB](uB)\n") ∧
    (linksMdClaimOrder [⟨⟨"AAA", some 5, some 11, some 1000000, some 1000000, some 200000,
        some 100000⟩, true, "uA"⟩,
      ⟨⟨"BBB", some 5, some 12, some 1000000, some 1000000, some 200000,
        some 100000⟩, true, "uB"⟩]
      = "\n--- Article Links ---\n- [BBB](uB)\n- [AAA](uA)\n") ∧
    ((tableRows [⟨⟨"AAA", some 5, some 11, some 1000000, some 1000000, some 200000,
        some 100000⟩, true, "uA"⟩,
      ⟨⟨"BBB", some 5, some 12, some 1000000, some 1000000, some 200000,
        some 100000⟩, true, "uB"⟩]).map DisplayRow.ticker = ["BBB", "AAA"]) :=
  ⟨by decide, by decide, by decide⟩

/-- C2 (amended): the link export lists, for each of the first 10 candidate
rows in their ORIGINAL (input) order whose News URL is nonempty, one
markdown link — the 10-row cap is applied to candidate rows before the URL
filter, and the table's sort does not reach `filtered_df`. -/
theorem C2_links_from_unsorted_head (cands : List Candidate) :
    linksMd cands = "\n--- Article Links ---\n"
      ++ concatStrings (((cands.take 10).filter (fun c => c.newsUrl != "")).map linkLine) := by
  rw [linksMd, linksLoop_filter]

end Screener
